import Mathlib

/-!
# Shallow embedding of the nrsc5-gui map pipeline (src/nrsc5_gui.py)

This file embeds the traffic-map tile grid, the weather-map compositor and
cache, the base-map fallback, and the map-viewer animation stepper of
`src/nrsc5_gui.py`, and proves the specification claims about them.

Conventions of the embedding:
* Python `int` timestamps become `ℤ`; the grid sentinel is the literal `0`
  from `self.map_tiles = [[0,0,0],[0,0,0],[0,0,0]]` (line 79).
* Decoded image payloads are abstracted as their byte content `List ℕ`;
  `PIL.Image.open(io.BytesIO(data))` either yields an image or raises, so a
  fragment payload is modelled as `Option (List ℕ)` (`none` = decode raises).
* File-system writes are modelled as explicit effect lists; GTK display
  calls and logging have no observable effect on the claimed state and are
  not modelled.
-/

namespace Nrsc5

/-! ## Traffic map (`process_traffic_map`, lines 579-609; `check_tiles`, 745-751) -/

/-- Grid position: `tile_x`, `tile_y` after the `-1` adjustment of
lines 584-585 (`int(match.group(1))-1`), each in `0..2`. -/
abbrev Pos := Fin 3 × Fin 3

/-- Image bytes as decoded from a fragment payload. -/
abbrev Img := List ℕ

/-- State of the traffic-map assembly: `self.map_tiles` (line 79) and the
600x600 `self.traffic_map` canvas (line 78), the latter viewed as its 3x3
grid of 200x200 cells; `none` is the initial white background of a cell. -/
structure TState where
  tiles : Fin 3 → Fin 3 → ℤ
  canvas : Fin 3 → Fin 3 → Option Img

/-- Initial state from `__init__` (lines 78-79): all timestamps 0 (the
empty-cell sentinel), canvas all white. -/
def initT : TState := ⟨fun _ _ => 0, fun _ _ => none⟩

/-- A parsed traffic-map fragment: grid position, parsed UTC timestamp
(line 587, `int(utc_time.timestamp())`), and the payload, `some img` when
`Image.open` succeeds and `none` when it raises. -/
structure TFrag where
  x : Fin 3
  y : Fin 3
  t : ℤ
  payload : Option Img
deriving DecidableEq

/-- `check_tiles` (lines 745-751): every grid entry equals `timestamp`. -/
def check_tiles (tiles : Fin 3 → Fin 3 → ℤ) (t : ℤ) : Bool :=
  decide (∀ i : Fin 3, ∀ j : Fin 3, tiles i j = t)

/-- Write `v` into the nested tile array at `(x, y)`. -/
def setCell {α : Type} (g : Fin 3 → Fin 3 → α) (x y : Fin 3) (v : α) :
    Fin 3 → Fin 3 → α :=
  Function.update g x (Function.update (g x) y v)

/-- One call of `process_traffic_map` on an already-matched fragment
(lines 589-601).  Returns the new state, the number of
`map/traffic_map.png` saves performed (line 601), and whether the call
raised.  The order is exactly that of the source: the duplicate guard
(line 590) first, then the timestamp write (line 595), then the decode and
paste (line 596) — so a decode failure raises *after* the timestamp was
recorded — then `check_tiles` and the save (lines 599-601). -/
def process_traffic_map (s : TState) (f : TFrag) : TState × ℕ × Bool :=
  if s.tiles f.x f.y = f.t then (s, 0, false)
  else
    let s1 : TState := ⟨setCell s.tiles f.x f.y f.t, s.canvas⟩
    match f.payload with
    | none => (s1, 0, true)
    | some img =>
      let s2 : TState := ⟨s1.tiles, setCell s1.canvas f.x f.y (some img)⟩
      if check_tiles s2.tiles f.t then (s2, 1, false) else (s2, 0, false)

/-- Dispatch a sequence of traffic fragments (the LOT event loop, line 877
calls `process_traffic_map` once per fragment; an exception in one callback
does not stop later callbacks).  Accumulates the save count. -/
def runTraffic (s : TState) : List TFrag → TState × ℕ
  | [] => (s, 0)
  | f :: rest =>
    let r := process_traffic_map s f
    let r2 := runTraffic r.1 rest
    (r2.1, r.2.1 + r2.2)

/-! ### Timestamp parsing (`datetime.strptime(.., "%Y%m%d_%H%M")` with UTC,
lines 586-587).  For dates of 1970 or later. -/

/-- Gregorian leap year. -/
def isLeap (y : ℕ) : Bool := y % 4 = 0 && (y % 100 ≠ 0 || y % 400 = 0)

/-- Days in month `m` (1-12) of year `y`. -/
def daysInMonth (y m : ℕ) : ℕ :=
  if m = 2 then (if isLeap y then 29 else 28)
  else if m = 4 ∨ m = 6 ∨ m = 9 ∨ m = 11 then 30 else 31

/-- Days from 1970-01-01 to `y`-`m`-`d` (proleptic Gregorian, `y ≥ 1970`). -/
def daysFromEpoch (y m d : ℕ) : ℕ :=
  ((List.range (y - 1970)).map (fun k => if isLeap (1970 + k) then 366 else 365)).sum
    + ((List.range (m - 1)).map (fun k => daysInMonth y (k + 1))).sum
    + (d - 1)

/-- `int(datetime(y,m,d,hh,mi,tzinfo=utc).timestamp())` for `y ≥ 1970`:
the parsed fragment timestamp of lines 586-587 and 616-617. -/
def epochSecs (y m d hh mi : ℕ) : ℤ :=
  86400 * (daysFromEpoch y m d : ℤ) + 3600 * hh + 60 * mi

/-! ## Weather maps (`process_weather_overlay`, lines 611-659;
`process_weather_maps`, lines 686-713) -/

/-- The weather slice of `self.map_data` (lines 80-86) together with
`self.weather_maps` (line 77): last-composited timestamp (`weather_time`,
sentinel 0), tracked region id (`weather_id`), path of the most recent
weather map (`weather_now`), and the sorted list of current weather maps. -/
structure WState where
  weather_time : ℤ
  weather_id : String
  weather_now : String
  weather_maps : List String
deriving DecidableEq

/-- File-system effects of the weather pipeline: writing a composited map
(`img_map.save(weather_map_path)`, line 645 — recorded with the overlay
bytes that were composited onto it) and deleting an expired map
(`os.remove(file)`, line 703). -/
inductive WEffect
  | writeMap (path : String) (overlay : Img)
  | deleteMap (path : String)
deriving DecidableEq

/-- `"map/weather_map_{id}_{timestamp}.png"` (line 630, with the posix
path separator). -/
def weatherMapPath (id : String) (t : ℤ) : String :=
  "map/weather_map_" ++ id ++ "_" ++ toString t ++ ".png"

/-- The loop body of `process_weather_maps` (lines 692-711), recursing over
the sorted directory listing, given as the regex-parsed `(map_id,
timestamp)` pairs of the matching files.  A file older than 12 hours is
popped from `weather_maps` and removed (lines 699-706, no exception for the
`weather_now` artifact); otherwise, if its id matches the tracked region,
it is appended to `weather_maps` when absent (lines 709-711). -/
def pruneLoop (wid : String) (now : ℤ) (maps : List String) :
    List (String × ℤ) → List String × List WEffect
  | [] => (maps, [])
  | (id, ts) :: rest =>
    if now - ts > 60 * 60 * 12 then
      let r := pruneLoop wid now (maps.erase (weatherMapPath id ts)) rest
      (r.1, .deleteMap (weatherMapPath id ts) :: r.2)
    else if id = wid then
      let maps1 := if weatherMapPath id ts ∈ maps then maps
                   else maps ++ [weatherMapPath id ts]
      pruneLoop wid now maps1 rest
    else pruneLoop wid now maps rest

/-- `process_weather_maps` (lines 686-713): scan the `map` directory
listing at time `now` and refresh `self.weather_maps`. -/
def process_weather_maps (s : WState) (now : ℤ)
    (listing : List (String × ℤ)) : WState × List WEffect :=
  let r := pruneLoop s.weather_id now s.weather_maps listing
  (⟨s.weather_time, s.weather_id, s.weather_now, r.1⟩, r.2)

/-- Outcome of the `try` block of `process_weather_overlay` (lines 632-656):
either every I/O and decode step succeeded, or some step raised `OSError`
(base-map creation or open, overlay decode — `PIL.UnidentifiedImageError`
is a subclass of `OSError` — or the save, line 657). -/
inductive ComposeOutcome
  | ok
  | oserror
deriving DecidableEq

/-- `process_weather_overlay` (lines 611-659) on an already-matched
fragment: parsed region id `rid`, parsed timestamp `t`, overlay bytes
`data`.  In order: the wrong-id guard (lines 621-623), the dedup guard
(line 624), the timestamp write (line 629), then the `try` block — on
success the composited map is saved, `weather_now` is updated (line 646)
and `process_weather_maps` runs over the directory listing (line 653); on
`OSError` the timestamp is reset to 0 (line 659). -/
def process_weather_overlay (s : WState) (rid : String) (t : ℤ) (data : Img)
    (outcome : ComposeOutcome) (now : ℤ) (listing : List (String × ℤ)) :
    WState × List WEffect :=
  if rid ≠ s.weather_id then (s, [])
  else if s.weather_time = t then (s, [])
  else
    let path := weatherMapPath s.weather_id t
    match outcome with
    | .ok =>
      let s2 : WState := ⟨t, s.weather_id, path, s.weather_maps⟩
      let r := process_weather_maps s2 now listing
      (r.1, .writeMap path data :: r.2)
    | .oserror => (⟨0, s.weather_id, s.weather_now, s.weather_maps⟩, [])

/-! ## Base map (`map_image_coordinates`, lines 716-727; `make_base_map`,
lines 729-743).  The latitude/longitude arithmetic is over `ℝ`, modelling
the Python float computation exactly at the real-number level. -/

/-- Python's built-in `round` (banker's rounding, half to even). -/
noncomputable def pyRound (x : ℝ) : ℤ :=
  if Int.fract x < 1 / 2 then ⌊x⌋
  else if 1 / 2 < Int.fract x then ⌊x⌋ + 1
  else if Even ⌊x⌋ then ⌊x⌋ else ⌊x⌋ + 1

/-- `math.radians`. -/
noncomputable def radians (d : ℝ) : ℝ := d * Real.pi / 180

/-- `map_image_coordinates` (lines 716-727): convert latitude and
longitude to pixel x and y in the world mosaic (`int(round(..))` of the
web-mercator tile position at zoom 8, offset by the first tile). -/
noncomputable def map_image_coordinates (lat lon : ℝ) : ℤ × ℤ :=
  let map_x := (1 + radians lon / Real.pi) / 2
  let map_y := (1 - Real.arsinh (Real.tan (radians lat)) / Real.pi) / 2
  let tile_x := map_x * 2 ^ 8 - 35
  let tile_y := map_y * 2 ^ 8 - 84
  (pyRound (tile_x * 256), pyRound (tile_y * 256))

/-- What `make_base_map` does to the base-map file (lines 729-743).
`cropWorld box` = crop the world mosaic `map.png` to `box` and save it;
`keepExisting` = the base map already exists, nothing written;
`raiseTypeError size` = the world mosaic is absent: line 742 calls
`Image.new("RGBA", (pos[2]-pos[1], pos[3]-pos[1]), "white")`, but the
`pos` entries are Python floats (produced by `float(..)` at line 673 of
`process_weather_info`), and Pillow's `Image.new` requires integer
dimensions, so the call raises `TypeError` with the recorded requested
size before anything is written or saved.  The `TypeError` is not an
`OSError` and is uncaught at both call sites (line 681 has no `try`;
line 636 sits in a `try` whose line 657 handler catches only `OSError`),
so no placeholder is created or persisted. -/
inductive BaseMapAction
  | cropWorld (box : (ℤ × ℤ) × (ℤ × ℤ))
  | keepExisting
  | raiseTypeError (size : ℝ × ℝ)

/-- `make_base_map` (lines 729-743) for region coordinates
`pos = [lat1, lon1, lat2, lon2]` (Python floats, modelled as reals),
given whether `map.png` (the world mosaic, `MAP_FILE`) and the region's
base map file exist. -/
noncomputable def make_base_map (worldExists baseExists : Bool)
    (pos : Fin 4 → ℝ) : BaseMapAction :=
  if worldExists then
    if baseExists then .keepExisting
    else .cropWorld (map_image_coordinates (pos 0) (pos 1),
                     map_image_coordinates (pos 2) (pos 3))
  else .raiseTypeError (pos 2 - pos 1, pos 3 - pos 1)

/-! ## Map-viewer animation (`NRSC5Map.animate`, lines 1296-1322) -/

/-- One result of `animate`: the image displayed (if any), the new
`map_index`, the delay of the rescheduled timer (`none` = no timer), and
whether the animate checkbox was switched off (line 1321, file missing).
`indexError` models Python raising on `weather_maps[map_index]` with a
nonempty list and an out-of-range index. -/
inductive AnimRes
  | step (rendered : Option String) (newIndex : ℕ) (delay : Option ℚ)
      (stopped : Bool)
  | indexError
deriving DecidableEq

/-- `animate` (lines 1296-1322).  `fileExists` models `os.path.isfile`;
`animate_on`, `mode`, `stop` model `self.config["animate"]`,
`self.config["mode"]` and `self.animate_stop`; `speed` is
`self.config["animation_speed"]`.  Rendering happens only when playing
(line 1303: `if self.config["animate"] and self.config["mode"] == 1 and
not self.animate_stop`); advancing wraps at the list length with a fixed
2-second timer (lines 1309-1311), otherwise the configured speed
(line 1313). -/
def animate (fileExists : String → Bool) (animate_on : Bool) (mode : ℕ)
    (stop : Bool) (speed : ℚ) (maps : List String) (i : ℕ) : AnimRes :=
  if maps.isEmpty then
    .step none 0 none true
  else
    match maps.get? i with
    | none => .indexError
    | some filename =>
      if fileExists filename then
        if animate_on && (mode == 1) && !stop then
          if maps.length ≤ i + 1 then .step (some filename) 0 (some 2) false
          else .step (some filename) (i + 1) (some speed) false
        else .step none i none false
      else .step none 0 none true

/-! ## Helper lemmas -/

theorem check_tiles_eq_true_iff (g : Fin 3 → Fin 3 → ℤ) (t : ℤ) :
    check_tiles g t = true ↔ ∀ i j : Fin 3, g i j = t := by
  simp [check_tiles]

theorem check_tiles_eq_false_iff (g : Fin 3 → Fin 3 → ℤ) (t : ℤ) :
    check_tiles g t = false ↔ ¬ ∀ i j : Fin 3, g i j = t := by
  simp [check_tiles]

theorem setCell_apply {α : Type} (g : Fin 3 → Fin 3 → α) (a b x y : Fin 3)
    (v : α) : setCell g a b v x y = if x = a ∧ y = b then v else g x y := by
  unfold setCell
  by_cases hx : x = a
  · subst hx
    by_cases hy : y = b
    · subst hy; simp
    · simp [Function.update_noteq hy, hy]
  · simp [Function.update_noteq hx, hx]

theorem process_weather_maps_time (s : WState) (now : ℤ)
    (listing : List (String × ℤ)) :
    (process_weather_maps s now listing).1.weather_time = s.weather_time := rfl

theorem process_weather_maps_id (s : WState) (now : ℤ)
    (listing : List (String × ℤ)) :
    (process_weather_maps s now listing).1.weather_id = s.weather_id := rfl

/-! ## Claims -/

/-- **C9** — wrong-region overlay rejection: a radar overlay fragment whose
parsed region id differs from the tracked `weather_id` is rejected with no
state change at all and no file-system effect. -/
theorem c9_wrong_region_rejected (s : WState) (rid : String) (t : ℤ)
    (data : Img) (outcome : ComposeOutcome) (now : ℤ)
    (listing : List (String × ℤ)) (h : rid ≠ s.weather_id) :
    process_weather_overlay s rid t data outcome now listing = (s, []) := by
  unfold process_weather_overlay
  rw [if_pos h]

/-- Witness for C9 at a concrete wrong-id fragment. -/
theorem c9_witness :
    ("KTLX" ≠ (WState.mk 0 "KDDC" "" []).weather_id) ∧
    process_weather_overlay (WState.mk 0 "KDDC" "" []) "KTLX" 100 [1, 2]
      .ok 0 [] = (WState.mk 0 "KDDC" "" [], []) :=
  ⟨by decide,
   c9_wrong_region_rejected (WState.mk 0 "KDDC" "" []) "KTLX" 100 [1, 2]
     .ok 0 [] (by decide)⟩

/-- **C5** — deduplication on recomposite: after a successful composite at
timestamp `t`, a second fragment for the same region with the same `t`
(even carrying different overlay bytes, and whatever its own try-block
would have done) returns with no state change and no file-system effect,
so the artifact written by the first call is untouched. -/
theorem c5_dedup_on_recomposite (s : WState) (t : ℤ) (d1 d2 : Img)
    (o2 : ComposeOutcome) (now now2 : ℤ)
    (listing listing2 : List (String × ℤ)) (hde : s.weather_time ≠ t) :
    (process_weather_overlay s s.weather_id t d1 .ok now listing).2.head?
      = some (.writeMap (weatherMapPath s.weather_id t) d1) ∧
    process_weather_overlay
        (process_weather_overlay s s.weather_id t d1 .ok now listing).1
        s.weather_id t d2 o2 now2 listing2
      = ((process_weather_overlay s s.weather_id t d1 .ok now listing).1,
         []) := by
  have hid : ¬ (s.weather_id ≠ s.weather_id) := fun h => h rfl
  have h1 : process_weather_overlay s s.weather_id t d1 .ok now listing
      = ((process_weather_maps
            (WState.mk t s.weather_id (weatherMapPath s.weather_id t)
              s.weather_maps) now listing).1,
         .writeMap (weatherMapPath s.weather_id t) d1 ::
           (process_weather_maps
            (WState.mk t s.weather_id (weatherMapPath s.weather_id t)
              s.weather_maps) now listing).2) := by
    unfold process_weather_overlay
    rw [if_neg hid, if_neg hde]
  refine ⟨by rw [h1]; rfl, ?_⟩
  rw [h1]
  unfold process_weather_overlay
  rw [if_neg (by rw [process_weather_maps_id]; exact hid),
      if_pos (by rw [process_weather_maps_time])]

/-- Witness for C5 at a concrete state and fragment pair. -/
theorem c5_witness :
    ((WState.mk 0 "KDDC" "" []).weather_time ≠ 500) ∧
    (process_weather_overlay (WState.mk 0 "KDDC" "" []) "KDDC" 500 [1]
        .ok 0 []).2.head?
      = some (.writeMap (weatherMapPath "KDDC" 500) [1]) ∧
    process_weather_overlay
        (process_weather_overlay (WState.mk 0 "KDDC" "" []) "KDDC" 500 [1]
          .ok 0 []).1 "KDDC" 500 [9, 9] .ok 7 []
      = ((process_weather_overlay (WState.mk 0 "KDDC" "" []) "KDDC" 500 [1]
          .ok 0 []).1, []) := by
  refine ⟨by decide, ?_⟩
  exact c5_dedup_on_recomposite (WState.mk 0 "KDDC" "" []) 500 [1] [9, 9]
    .ok 0 7 [] [] (by decide)

/-- **C6, counterexample** — the claim's consequence fails when the failed
fragment's timestamp is itself the sentinel value 0 (a fragment dated
1970-01-01 00:00 UTC): after the failing composite resets `weather_time`
to 0, a subsequent fragment with the identical timestamp 0 is silently
deduplicated (no recomposite, no write) rather than retried. -/
theorem c6_counterexample :
    (process_weather_overlay (WState.mk 5 "X" "" []) "X" 0 [1]
        .oserror 0 []).1.weather_time = 0 ∧
    process_weather_overlay
        (process_weather_overlay (WState.mk 5 "X" "" []) "X" 0 [1]
          .oserror 0 []).1 "X" 0 [2] .ok 0 []
      = ((process_weather_overlay (WState.mk 5 "X" "" []) "X" 0 [1]
          .oserror 0 []).1, []) := by
  decide

/-- **C6, amended** — if an I/O or decode failure occurs while producing a
weather-map artifact, the stored last-composited timestamp is reset to the
sentinel 0 (and no artifact is written); consequently a subsequent fragment
bearing the identical timestamp is retried rather than deduplicated,
*provided* that timestamp is not itself 0 (the sentinel, i.e. the Unix
epoch). -/
theorem c6_failure_resets_sentinel (s : WState) (t : ℤ) (data d2 : Img)
    (now now2 : ℤ) (listing listing2 : List (String × ℤ))
    (hde : s.weather_time ≠ t) :
    (process_weather_overlay s s.weather_id t data .oserror now
        listing).1.weather_time = 0 ∧
    (process_weather_overlay s s.weather_id t data .oserror now
        listing).2 = [] ∧
    (t ≠ 0 →
      (process_weather_overlay
          (process_weather_overlay s s.weather_id t data .oserror now
            listing).1 s.weather_id t d2 .ok now2 listing2).2.head?
        = some (.writeMap (weatherMapPath s.weather_id t) d2)) := by
  have hid : ¬ (s.weather_id ≠ s.weather_id) := fun h => h rfl
  have h1 : process_weather_overlay s s.weather_id t data .oserror now listing
      = (WState.mk 0 s.weather_id s.weather_now s.weather_maps, []) := by
    unfold process_weather_overlay
    rw [if_neg hid, if_neg hde]
  refine ⟨by rw [h1], by rw [h1], fun ht => ?_⟩
  rw [h1]
  unfold process_weather_overlay
  rw [if_neg hid, if_neg (fun h : (0 : ℤ) = t => ht h.symm)]
  rfl

/-- Witness for C6's amended theorem at a concrete failing fragment. -/
theorem c6_witness :
    ((WState.mk 5 "X" "" []).weather_time ≠ 900) ∧
    (process_weather_overlay (WState.mk 5 "X" "" []) "X" 900 [1]
        .oserror 0 []).1.weather_time = 0 ∧
    (process_weather_overlay (WState.mk 5 "X" "" []) "X" 900 [1]
        .oserror 0 []).2 = [] ∧
    (process_weather_overlay
        (process_weather_overlay (WState.mk 5 "X" "" []) "X" 900 [1]
          .oserror 0 []).1 "X" 900 [2] .ok 3 []).2.head?
      = some (.writeMap (weatherMapPath "X" 900) [2]) := by
  have h := c6_failure_resets_sentinel (WState.mk 5 "X" "" []) 900 [1] [2]
    0 3 [] [] (by decide)
  exact ⟨by decide, h.1, h.2.1, h.2.2 (by decide)⟩

/-- The deletions performed by the cache-refresh loop are exactly the
listed artifacts older than 12 hours — with no exception for any of them. -/
theorem pruneLoop_deletions (wid : String) (now : ℤ)
    (listing : List (String × ℤ)) :
    ∀ maps : List String,
      (pruneLoop wid now maps listing).2
        = (listing.filter fun f => decide (now - f.2 > 60 * 60 * 12)).map
            (fun f => WEffect.deleteMap (weatherMapPath f.1 f.2)) := by
  induction listing with
  | nil => intro maps; rfl
  | cons hd rest ih =>
    intro maps
    obtain ⟨id, ts⟩ := hd
    unfold pruneLoop
    by_cases h : now - ts > 60 * 60 * 12
    · rw [if_pos h]
      simp only [List.filter_cons, ih, decide_eq_true_eq]
      rw [if_pos h]
      simp
    · rw [if_neg h]
      by_cases hid : id = wid
      · rw [if_pos hid]
        simp only [List.filter_cons, ih, decide_eq_true_eq]
        rw [if_neg h]
      · rw [if_neg hid]
        simp only [List.filter_cons, ih, decide_eq_true_eq]
        rw [if_neg h]

/-- **C3, counterexample** — the cache refresh has no "most recent"
protection: with a single artifact aged 13 hours that is exactly the one
referenced by `weather_now`, the refresh deletes it (at `now = 100000`,
artifact timestamp `53200 = now - 13h`). -/
theorem c3_counterexample :
    (process_weather_maps
        (WState.mk 0 "X" (weatherMapPath "X" 53200) [weatherMapPath "X" 53200])
        100000 [("X", 53200)]).2
      = [.deleteMap ((WState.mk 0 "X" (weatherMapPath "X" 53200)
          [weatherMapPath "X" 53200]).weather_now)] := by
  decide

/-- **C3, amended** — a cache refresh deletes exactly the listed artifacts
whose age `now - timestamp` exceeds 12 hours, with *no* exception for the
artifact referenced as most recent; in particular, given artifacts
timestamped `now-13h`, `now-11h`, and `now` with the last one referenced as
most recent, a refresh deletes only the `now-13h` artifact and keeps the
other two in the weather-map list. -/
theorem c3_retention_boundary (s : WState) (now : ℤ)
    (listing : List (String × ℤ)) :
    (process_weather_maps s now listing).2
      = (listing.filter fun f => decide (now - f.2 > 60 * 60 * 12)).map
          (fun f => WEffect.deleteMap (weatherMapPath f.1 f.2)) ∧
    (s.weather_now = weatherMapPath s.weather_id now →
      listing = [(s.weather_id, now - 46800), (s.weather_id, now - 39600),
                 (s.weather_id, now)] →
      (process_weather_maps s now listing).2
          = [.deleteMap (weatherMapPath s.weather_id (now - 46800))] ∧
      weatherMapPath s.weather_id (now - 39600)
          ∈ (process_weather_maps s now listing).1.weather_maps ∧
      weatherMapPath s.weather_id now
          ∈ (process_weather_maps s now listing).1.weather_maps) := by
  constructor
  · exact pruneLoop_deletions s.weather_id now listing s.weather_maps
  · intro _ hl
    subst hl
    have h13 : now - (now - 46800) > 60 * 60 * 12 := by omega
    have h11 : ¬ (now - (now - 39600) > 60 * 60 * 12) := by omega
    have h0 : ¬ (now - now > 60 * 60 * 12) := by omega
    refine ⟨?_, ?_⟩
    · show (pruneLoop s.weather_id now s.weather_maps _).2 = _
      rw [pruneLoop_deletions]
      simp only [List.filter_cons, decide_eq_true_eq]
      rw [if_pos h13, if_neg h11, if_neg h0]
      simp
    · show _ ∈ (pruneLoop s.weather_id now s.weather_maps _).1 ∧
        _ ∈ (pruneLoop s.weather_id now s.weather_maps _).1
      unfold pruneLoop
      rw [if_pos h13]
      unfold pruneLoop
      rw [if_neg h11, if_pos rfl]
      unfold pruneLoop
      rw [if_neg h0, if_pos rfl]
      unfold pruneLoop
      constructor
      · by_cases hn : weatherMapPath s.weather_id now ∈
          (if weatherMapPath s.weather_id (now - 39600) ∈
              (s.weather_maps.erase (weatherMapPath s.weather_id (now - 46800)))
            then s.weather_maps.erase (weatherMapPath s.weather_id (now - 46800))
            else s.weather_maps.erase (weatherMapPath s.weather_id (now - 46800))
              ++ [weatherMapPath s.weather_id (now - 39600)])
        · rw [if_pos hn]
          by_cases h2 : weatherMapPath s.weather_id (now - 39600) ∈
              s.weather_maps.erase (weatherMapPath s.weather_id (now - 46800))
          · rw [if_pos h2]; exact h2
          · rw [if_neg h2]; exact List.mem_append_right _ (by simp)
        · rw [if_neg hn]
          apply List.mem_append_left
          by_cases h2 : weatherMapPath s.weather_id (now - 39600) ∈
              s.weather_maps.erase (weatherMapPath s.weather_id (now - 46800))
          · rw [if_pos h2]; exact h2
          · rw [if_neg h2]; exact List.mem_append_right _ (by simp)
      · by_cases hn : weatherMapPath s.weather_id now ∈
          (if weatherMapPath s.weather_id (now - 39600) ∈
              (s.weather_maps.erase (weatherMapPath s.weather_id (now - 46800)))
            then s.weather_maps.erase (weatherMapPath s.weather_id (now - 46800))
            else s.weather_maps.erase (weatherMapPath s.weather_id (now - 46800))
              ++ [weatherMapPath s.weather_id (now - 39600)])
        · rw [if_pos hn]; exact hn
        · rw [if_neg hn]; exact List.mem_append_right _ (by simp)

/-- Witness for C3's amended theorem at `now = 100000` with concrete
artifacts aged 13h, 11h and 0h. -/
theorem c3_witness :
    ((WState.mk 0 "X" (weatherMapPath "X" 100000) []).weather_now
        = weatherMapPath "X" 100000) ∧
    (process_weather_maps (WState.mk 0 "X" (weatherMapPath "X" 100000) [])
        100000 [("X", 53200), ("X", 60400), ("X", 100000)]).2
      = [.deleteMap (weatherMapPath "X" 53200)] ∧
    weatherMapPath "X" 60400
      ∈ (process_weather_maps (WState.mk 0 "X" (weatherMapPath "X" 100000) [])
          100000 [("X", 53200), ("X", 60400), ("X", 100000)]).1.weather_maps ∧
    weatherMapPath "X" 100000
      ∈ (process_weather_maps (WState.mk 0 "X" (weatherMapPath "X" 100000) [])
          100000 [("X", 53200), ("X", 60400), ("X", 100000)]).1.weather_maps := by
  have h := (c3_retention_boundary
    (WState.mk 0 "X" (weatherMapPath "X" 100000) []) 100000
    [("X", 53200), ("X", 60400), ("X", 100000)]).2 rfl (by norm_num)
  have e1 : (100000 : ℤ) - 46800 = 53200 := by norm_num
  have e2 : (100000 : ℤ) - 39600 = 60400 := by norm_num
  rw [e1, e2] at h
  exact ⟨rfl, h.1, h.2.1, h.2.2⟩

/-- After any call of `process_traffic_map`, the recorded timestamp at the
fragment's own position equals the fragment's timestamp (the duplicate
guard saw it, or the call just wrote it — even a call whose decode
raised). -/
theorem tiles_after_process (s : TState) (f : TFrag) :
    (process_traffic_map s f).1.tiles f.x f.y = f.t := by
  unfold process_traffic_map
  by_cases h : s.tiles f.x f.y = f.t
  · rw [if_pos h]; exact h
  · rw [if_neg h]
    cases hp : f.payload with
    | none => simp [setCell_apply]
    | some img =>
      by_cases hc : check_tiles (setCell s.tiles f.x f.y f.t) f.t = true
      · simp [hc, setCell_apply]
      · simp [hc, setCell_apply]

/-- A fragment whose timestamp is already recorded at its position is
dropped by the duplicate guard of line 590: no state change, no save, no
exception. -/
theorem process_traffic_map_of_dup (s : TState) (f : TFrag)
    (h : s.tiles f.x f.y = f.t) :
    process_traffic_map s f = (s, 0, false) := by
  unfold process_traffic_map
  rw [if_pos h]

/-- **C4** — idempotent tile placement: replaying the same
`(position, timestamp, image)` fragment immediately after it was placed is
a complete no-op: the grid state after the second call is identical to the
state after the first, and the second call performs no paste, no timestamp
update, and no save. -/
theorem c4_idempotent_placement (s : TState) (x y : Fin 3) (t : ℤ)
    (img : Img) :
    process_traffic_map (process_traffic_map s ⟨x, y, t, some img⟩).1
        ⟨x, y, t, some img⟩
      = ((process_traffic_map s ⟨x, y, t, some img⟩).1, 0, false) :=
  process_traffic_map_of_dup _ _ (tiles_after_process s ⟨x, y, t, some img⟩)

/-- **C2, counterexample** — decode failure is *not* atomic: a fragment for
cell `(0,0)` at timestamp 7 whose payload fails to decode leaves the
recorded timestamp for that cell set to 7, not unset; and after the other
8 cells then arrive with valid images at the same timestamp, completion
detection succeeds and the mosaic is saved once even though cell `(0,0)`
was never pasted (its canvas cell is still the initial background). -/
theorem c2_counterexample :
    (process_traffic_map initT ⟨0, 0, 7, none⟩).1.tiles 0 0 = 7 ∧
    (runTraffic initT
        [⟨0, 0, 7, none⟩,
         ⟨0, 1, 7, some [1]⟩, ⟨0, 2, 7, some [2]⟩,
         ⟨1, 0, 7, some [3]⟩, ⟨1, 1, 7, some [4]⟩, ⟨1, 2, 7, some [5]⟩,
         ⟨2, 0, 7, some [6]⟩, ⟨2, 1, 7, some [7]⟩,
         ⟨2, 2, 7, some [8]⟩]).2 = 1 ∧
    (runTraffic initT
        [⟨0, 0, 7, none⟩,
         ⟨0, 1, 7, some [1]⟩, ⟨0, 2, 7, some [2]⟩,
         ⟨1, 0, 7, some [3]⟩, ⟨1, 1, 7, some [4]⟩, ⟨1, 2, 7, some [5]⟩,
         ⟨2, 0, 7, some [6]⟩, ⟨2, 1, 7, some [7]⟩,
         ⟨2, 2, 7, some [8]⟩]).1.canvas 0 0 = none := by
  refine ⟨by decide, by decide, by decide⟩

/-- **C2, amended** — on decode failure the previous tile image at the
position is retained (no paste), no save occurs, and the exception
propagates; but the recorded timestamp for the position is *not* left
unset: it was already overwritten with the fragment's timestamp before the
decode was attempted, so completion detection for that generation can
spuriously succeed once the remaining cells arrive. -/
theorem c2_decode_failure (s : TState) (x y : Fin 3) (t : ℤ)
    (h : s.tiles x y ≠ t) :
    process_traffic_map s ⟨x, y, t, none⟩
      = (⟨setCell s.tiles x y t, s.canvas⟩, 0, true) := by
  unfold process_traffic_map
  rw [if_neg h]

/-- Witness for C2's amended theorem at a concrete decode-failing
fragment. -/
theorem c2_witness :
    (initT.tiles 0 0 ≠ 7) ∧
    process_traffic_map initT ⟨0, 0, 7, none⟩
      = (⟨setCell initT.tiles 0 0 7, initT.canvas⟩, 0, true) :=
  ⟨by decide, c2_decode_failure initT 0 0 7 (by decide)⟩

/-- A run consisting solely of epoch-timestamped fragments leaves the
fresh grid untouched and never saves: every such fragment hits the
duplicate guard against the sentinel 0. -/
theorem runTraffic_epoch (l : List TFrag) (hl : ∀ f ∈ l, f.t = 0) :
    runTraffic initT l = (initT, 0) := by
  induction l with
  | nil => rfl
  | cons f rest ih =>
    have hf : f.t = 0 := hl f (List.mem_cons_self f rest)
    have hstep : process_traffic_map initT f = (initT, 0, false) :=
      process_traffic_map_of_dup _ _ (by rw [hf]; rfl)
    have hrest := ih (fun g hg => hl g (List.mem_cons_of_mem _ hg))
    unfold runTraffic
    rw [hstep]
    simp [hrest]

/-- **C10** — sentinel collision at the Unix epoch: the empty-cell sentinel
is the integer 0, which equals the parsed timestamp of a fragment dated
1970-01-01 00:00 UTC; a traffic tile for any cell still holding the
sentinel whose declared timestamp is the epoch is treated as already placed
and dropped without pasting, and a whole generation timestamped at the
epoch leaves the fresh grid untouched with no mosaic ever saved. -/
theorem c10_epoch_sentinel_collision (s : TState) (x y : Fin 3)
    (payload : Option Img) (l : List TFrag) (hcell : s.tiles x y = 0)
    (hl : ∀ f ∈ l, f.t = epochSecs 1970 1 1 0 0) :
    epochSecs 1970 1 1 0 0 = 0 ∧
    process_traffic_map s ⟨x, y, epochSecs 1970 1 1 0 0, payload⟩
      = (s, 0, false) ∧
    runTraffic initT l = (initT, 0) := by
  have hz : epochSecs 1970 1 1 0 0 = 0 := by decide
  exact ⟨hz,
    process_traffic_map_of_dup _ _ (by rw [hz]; exact hcell),
    runTraffic_epoch l (fun f hf => by rw [hl f hf, hz])⟩

/-- Witness for C10: a concrete epoch-dated fragment against the fresh
grid. -/
theorem c10_witness :
    (initT.tiles 0 0 = 0) ∧
    process_traffic_map initT ⟨0, 0, epochSecs 1970 1 1 0 0, some [1]⟩
      = (initT, 0, false) ∧
    runTraffic initT [⟨1, 2, epochSecs 1970 1 1 0 0, some [3]⟩]
      = (initT, 0) := by
  have h := c10_epoch_sentinel_collision initT 0 0 (some [1])
    [⟨1, 2, epochSecs 1970 1 1 0 0, some [3]⟩] (by decide)
    (by intro f hf; simp at hf; rw [hf])
  exact ⟨by decide, h.2.1, h.2.2⟩

/-- **C8** — animation wraparound: while playing (animate on, weather mode,
not cancelled) over artifacts that all exist on disk, each step renders the
artifact at the current index and advances; an advanced index reaching the
list length resets to 0 with the fixed 2-second extended pause, otherwise
the configured speed is used.  With a list of length 3 started at index 0,
three steps return the index to 0, the first two transitions using the
configured speed and the third-to-first transition the extended 2-second
interval. -/
theorem c8_animation_wraparound (fe : String → Bool) (speed : ℚ)
    (maps : List String) (i : ℕ) (hfe : ∀ f ∈ maps, fe f = true)
    (hi : i < maps.length) :
    (animate fe true 1 false speed maps i
      = if maps.length ≤ i + 1
        then .step (some (maps.get ⟨i, hi⟩)) 0 (some 2) false
        else .step (some (maps.get ⟨i, hi⟩)) (i + 1) (some speed) false) ∧
    (∀ a b c : String, maps = [a, b, c] →
      animate fe true 1 false speed maps 0 = .step (some a) 1 (some speed) false ∧
      animate fe true 1 false speed maps 1 = .step (some b) 2 (some speed) false ∧
      animate fe true 1 false speed maps 2 = .step (some c) 0 (some 2) false) := by
  constructor
  · have hne : maps.isEmpty = false := by
      cases maps with
      | nil => exact absurd hi (by simp)
      | cons a l => rfl
    have hget : maps.get? i = some (maps.get ⟨i, hi⟩) := List.get?_eq_get hi
    have hex : fe (maps.get ⟨i, hi⟩) = true := hfe _ (List.get_mem maps i hi)
    unfold animate
    rw [hne]
    simp only [Bool.false_eq_true, if_false, hget]
    rw [if_pos hex]
    simp
  · intro a b c hm
    subst hm
    have ha : fe a = true := hfe a (by simp)
    have hb : fe b = true := hfe b (by simp)
    have hc : fe c = true := hfe c (by simp)
    refine ⟨?_, ?_, ?_⟩ <;>
      simp [animate, ha, hb, hc]

/-- Witness for C8: three artifacts that all exist, stepped from index 0. -/
theorem c8_witness :
    animate (fun _ => true) true 1 false (1 / 2) ["x", "y", "z"] 0
      = .step (some "x") 1 (some (1 / 2)) false ∧
    animate (fun _ => true) true 1 false (1 / 2) ["x", "y", "z"] 1
      = .step (some "y") 2 (some (1 / 2)) false ∧
    animate (fun _ => true) true 1 false (1 / 2) ["x", "y", "z"] 2
      = .step (some "z") 0 (some 2) false :=
  (c8_animation_wraparound (fun _ => true) (1 / 2) ["x", "y", "z"] 0
    (fun _ _ => rfl) (by decide)).2 "x" "y" "z" rfl

/-- Unfolding equation of `runTraffic` on the empty run. -/
theorem runTraffic_nil (s : TState) : runTraffic s [] = (s, 0) := rfl

/-- Unfolding equation of `runTraffic` on a cons. -/
theorem runTraffic_cons (s : TState) (f : TFrag) (rest : List TFrag) :
    runTraffic s (f :: rest)
      = ((runTraffic (process_traffic_map s f).1 rest).1,
         (process_traffic_map s f).2.1
           + (runTraffic (process_traffic_map s f).1 rest).2) := rfl

/-- `runTraffic` distributes over list append, summing the save counts. -/
theorem runTraffic_append (s : TState) (a b : List TFrag) :
    runTraffic s (a ++ b)
      = ((runTraffic (runTraffic s a).1 b).1,
         (runTraffic s a).2 + (runTraffic (runTraffic s a).1 b).2) := by
  induction a generalizing s with
  | nil => simp [runTraffic_nil]
  | cons f rest ih =>
    rw [List.cons_append, runTraffic_cons, ih, runTraffic_cons s f rest]
    simp [Nat.add_assoc]

/-- A fragment that passes the duplicate guard and decodes: the timestamp
is recorded, the image is pasted, and the mosaic is saved exactly when
`check_tiles` now succeeds. -/
theorem process_traffic_map_step (s : TState) (f : TFrag) (img : Img)
    (hguard : ¬ s.tiles f.x f.y = f.t) (himg : f.payload = some img) :
    process_traffic_map s f
      = (⟨setCell s.tiles f.x f.y f.t, setCell s.canvas f.x f.y (some img)⟩,
         (if check_tiles (setCell s.tiles f.x f.y f.t) f.t then 1 else 0),
         false) := by
  unfold process_traffic_map
  rw [if_neg hguard, himg]
  show (if check_tiles (setCell s.tiles f.x f.y f.t) f.t = true
      then ((⟨setCell s.tiles f.x f.y f.t,
        setCell s.canvas f.x f.y (some img)⟩ : TState), 1, false)
      else (⟨setCell s.tiles f.x f.y f.t,
        setCell s.canvas f.x f.y (some img)⟩, 0, false)) = _
  by_cases hc : check_tiles (setCell s.tiles f.x f.y f.t) f.t = true
  · rw [if_pos hc, if_pos hc]
  · rw [if_neg hc, if_neg hc]

/-- The grid position of a fragment, as a pair. -/
def fragPos (f : TFrag) : Pos := (f.x, f.y)

/-- Characterization of a run of distinct-position fragments all carrying
the same non-sentinel timestamp `t` with decodable payloads, started from a
state whose grid holds `t` exactly on a set `S` disjoint from the arriving
positions: afterwards the grid holds `t` exactly on the union of `S` with
the arrived positions, and exactly one save happened iff the run is
nonempty and that union covers all nine cells. -/
theorem runTraffic_charac (t : ℤ) (ht : t ≠ 0) (l : List TFrag) :
    ∀ (S : Finset Pos) (s : TState),
      (∀ x y, s.tiles x y = if ((x, y) : Pos) ∈ S then t else 0) →
      (∀ f ∈ l, f.t = t ∧ f.payload ≠ none) →
      (l.map fragPos).Nodup →
      (∀ f ∈ l, fragPos f ∉ S) →
      (∀ x y, (runTraffic s l).1.tiles x y
          = if ((x, y) : Pos) ∈ S ∪ (l.map fragPos).toFinset then t else 0)
      ∧ (runTraffic s l).2
          = if l ≠ [] ∧ S ∪ (l.map fragPos).toFinset = Finset.univ then 1
            else 0 := by
  induction l with
  | nil =>
    intro S s hs _ _ _
    refine ⟨fun x y => ?_, by simp [runTraffic_nil]⟩
    simpa using hs x y
  | cons f rest ih =>
    intro S s hs hall hnd hdisj
    obtain ⟨hft, hfp⟩ := hall f (List.mem_cons_self f rest)
    obtain ⟨img, himg⟩ : ∃ img, f.payload = some img := by
      cases hp : f.payload with
      | none => exact absurd hp hfp
      | some i => exact ⟨i, rfl⟩
    have hpS : fragPos f ∉ S := hdisj f (List.mem_cons_self f rest)
    have hnd' : (fragPos f ∉ rest.map fragPos) ∧ (rest.map fragPos).Nodup := by
      rw [List.map_cons, List.nodup_cons] at hnd
      exact hnd
    have hguard : ¬ s.tiles f.x f.y = f.t := by
      rw [hs f.x f.y, hft,
        if_neg (show ¬ ((f.x, f.y) : Pos) ∈ S from hpS)]
      exact Ne.symm ht
    have hs' : ∀ x y,
        (setCell s.tiles f.x f.y f.t) x y
          = if ((x, y) : Pos) ∈ insert (fragPos f) S then t else 0 := by
      intro x y
      rw [setCell_apply]
      by_cases hxy : x = f.x ∧ y = f.y
      · rw [if_pos hxy, hft, if_pos (Finset.mem_insert.mpr
          (Or.inl (by rw [hxy.1, hxy.2]; rfl)))]
      · rw [if_neg hxy, hs x y]
        have hne : ¬ ((x, y) : Pos) = fragPos f := fun hc =>
          hxy ⟨congrArg Prod.fst hc, congrArg Prod.snd hc⟩
        by_cases hmem : ((x, y) : Pos) ∈ S
        · rw [if_pos hmem, if_pos (Finset.mem_insert.mpr (Or.inr hmem))]
        · rw [if_neg hmem,
            if_neg (fun hc => (Finset.mem_insert.mp hc).elim hne hmem)]
    have hcheck : check_tiles (setCell s.tiles f.x f.y f.t) f.t = true
        ↔ insert (fragPos f) S = Finset.univ := by
      rw [check_tiles_eq_true_iff]
      constructor
      · intro h
        apply Finset.eq_univ_iff_forall.mpr
        intro p
        have hp := h p.1 p.2
        rw [hs' p.1 p.2, hft] at hp
        by_contra hc
        rw [if_neg (by simpa using hc)] at hp
        exact ht hp.symm
      · intro h i j
        rw [hs' i j, h, if_pos (Finset.mem_univ ((i, j) : Pos))]
        exact hft.symm
    by_cases hU : insert (fragPos f) S = Finset.univ
    · -- the arriving fragment completes the grid; no further listed
      -- fragment could have a fresh position, so the rest is empty
      have hrest : rest = [] := by
        rcases rest with _ | ⟨g, rest'⟩
        · rfl
        · exfalso
          have hg := hdisj g
            (List.mem_cons_of_mem _ (List.mem_cons_self g rest'))
          have hgf : fragPos g ≠ fragPos f := fun hc =>
            hnd'.1 (hc ▸ List.mem_map_of_mem fragPos
              (List.mem_cons_self g rest'))
          have hgmem : fragPos g ∈ insert (fragPos f) S :=
            hU ▸ Finset.mem_univ _
          rcases Finset.mem_insert.mp hgmem with h | h
          · exact hgf h
          · exact hg h
      subst hrest
      have hstep := process_traffic_map_step s f img hguard himg
      rw [if_pos (hcheck.mpr hU)] at hstep
      have hset : S ∪ (([f] : List TFrag).map fragPos).toFinset
          = insert (fragPos f) S := by
        simp only [List.map_cons, List.map_nil, List.toFinset_cons,
          List.toFinset_nil, Finset.union_insert, Finset.union_empty]
      constructor
      · intro x y
        rw [runTraffic_cons, hstep, runTraffic_nil, hset]
        exact hs' x y
      · rw [runTraffic_cons, hstep, runTraffic_nil, hset,
          if_pos ⟨by simp, hU⟩]
        rfl
    · -- the grid is still incomplete after this placement
      have hstep := process_traffic_map_step s f img hguard himg
      rw [if_neg (fun hc => hU (hcheck.mp hc))] at hstep
      have hih := ih (insert (fragPos f) S)
        ⟨setCell s.tiles f.x f.y f.t, setCell s.canvas f.x f.y (some img)⟩
        hs'
        (fun g hg => hall g (List.mem_cons_of_mem _ hg))
        hnd'.2
        (fun g hg => by
          rw [Finset.mem_insert]
          rintro (h | h)
          · exact hnd'.1 (h ▸ List.mem_map_of_mem fragPos hg)
          · exact hdisj g (List.mem_cons_of_mem _ hg) h)
      have hsets : S ∪ ((f :: rest).map fragPos).toFinset
          = insert (fragPos f) S ∪ (rest.map fragPos).toFinset := by
        rw [List.map_cons, List.toFinset_cons, Finset.union_insert,
          Finset.insert_union]
      constructor
      · intro x y
        rw [runTraffic_cons, hstep, hsets]
        exact hih.1 x y
      · rw [runTraffic_cons, hstep, hsets, hih.2, Nat.zero_add]
        rcases rest with _ | ⟨g, rest'⟩
        · simp only [List.map_nil, List.toFinset_nil, Finset.union_empty]
          rw [if_neg (by simp), if_neg (fun hc => hU hc.2)]
        · by_cases hU2 : insert (fragPos f) S
              ∪ ((g :: rest').map fragPos).toFinset = Finset.univ
          · rw [if_pos ⟨by simp, hU2⟩, if_pos ⟨by simp, hU2⟩]
          · rw [if_neg (fun hc => hU2 hc.2), if_neg (fun hc => hU2 hc.2)]
/-- **C1** — completion exactness with a single write: for a non-sentinel
timestamp `t`, after 8 distinct cells arrive with decodable tiles
timestamped `t` (in any order), the grid is incomplete and no mosaic was
saved; additionally placing the 9th cell with timestamp `t` makes the grid
complete with exactly one save in total (so the single save happened on
that 9th placement); placing the 9th cell with a timestamp `t' ≠ t`
instead yields no save and leaves completeness false (for `t'` and for
`t`). -/
theorem c1_completion_exactness (t : ℤ) (ht : t ≠ 0) (l8 : List TFrag)
    (x9 y9 : Fin 3) (img9 img9' : Img) (t' : ℤ) (ht' : t' ≠ t)
    (h8 : ∀ f ∈ l8, f.t = t ∧ f.payload ≠ none)
    (hnd : ((l8 ++ [(⟨x9, y9, t, some img9⟩ : TFrag)]).map fragPos).Nodup)
    (hlen : l8.length = 8) :
    (runTraffic initT l8).2 = 0 ∧
    check_tiles (runTraffic initT l8).1.tiles t = false ∧
    (runTraffic initT (l8 ++ [⟨x9, y9, t, some img9⟩])).2 = 1 ∧
    check_tiles
      (runTraffic initT (l8 ++ [⟨x9, y9, t, some img9⟩])).1.tiles t = true ∧
    (runTraffic initT (l8 ++ [⟨x9, y9, t', some img9'⟩])).2 = 0 ∧
    check_tiles
      (runTraffic initT (l8 ++ [⟨x9, y9, t', some img9'⟩])).1.tiles t'
        = false ∧
    check_tiles
      (runTraffic initT (l8 ++ [⟨x9, y9, t', some img9'⟩])).1.tiles t
        = false := by
  have hs0 : ∀ x y, initT.tiles x y
      = if ((x, y) : Pos) ∈ (∅ : Finset Pos) then t else 0 := by
    intro x y; simp [initT]
  have hmapappend : ((l8 ++ [(⟨x9, y9, t, some img9⟩ : TFrag)]).map fragPos)
      = l8.map fragPos ++ [((x9, y9) : Pos)] := by
    rw [List.map_append]; rfl
  rw [hmapappend] at hnd
  have hnd8 : (l8.map fragPos).Nodup := (List.nodup_append.mp hnd).1
  have hp9 : ((x9, y9) : Pos) ∉ l8.map fragPos := by
    intro hmem
    exact ((List.nodup_append.mp hnd).2.2 hmem) (List.mem_singleton_self _)
  have hdisj8 : ∀ f ∈ l8, fragPos f ∉ (∅ : Finset Pos) := by simp
  have H8 := runTraffic_charac t ht l8 ∅ initT hs0 h8 hnd8 hdisj8
  have hT8card : (l8.map fragPos).toFinset.card = 8 := by
    rw [List.toFinset_card_of_nodup hnd8, List.length_map, hlen]
  have hT8ne : (l8.map fragPos).toFinset ≠ Finset.univ := by
    intro h
    have : ((l8.map fragPos).toFinset.card) = 9 := by
      rw [h, Finset.card_univ]
      simp [Fintype.card_prod]
    omega
  have hs8 : ∀ x y, (runTraffic initT l8).1.tiles x y
      = if ((x, y) : Pos) ∈ (l8.map fragPos).toFinset then t else 0 := by
    intro x y
    have := H8.1 x y
    rwa [Finset.empty_union] at this
  have hA : (runTraffic initT l8).2 = 0 := by
    rw [H8.2, if_neg]
    rintro ⟨-, hc⟩
    rw [Finset.empty_union] at hc
    exact hT8ne hc
  have hp9T8 : ((x9, y9) : Pos) ∉ (l8.map fragPos).toFinset := by
    rw [List.mem_toFinset]; exact hp9
  have h9cell : (runTraffic initT l8).1.tiles x9 y9 = 0 := by
    rw [hs8, if_neg hp9T8]
  have hB : check_tiles (runTraffic initT l8).1.tiles t = false := by
    rw [check_tiles_eq_false_iff]
    intro hall
    have := hall x9 y9
    rw [h9cell] at this
    exact ht this.symm
  -- the completing 9th fragment
  have h9 : ∀ f ∈ l8 ++ [(⟨x9, y9, t, some img9⟩ : TFrag)],
      f.t = t ∧ f.payload ≠ none := by
    intro f hf
    rcases List.mem_append.mp hf with h | h
    · exact h8 f h
    · rw [List.mem_singleton.mp h]
      exact ⟨rfl, by simp⟩
  have hnd9 : ((l8 ++ [(⟨x9, y9, t, some img9⟩ : TFrag)]).map fragPos).Nodup := by
    rw [hmapappend]; exact hnd
  have hdisj9 : ∀ f ∈ l8 ++ [(⟨x9, y9, t, some img9⟩ : TFrag)],
      fragPos f ∉ (∅ : Finset Pos) := by simp
  have H9 := runTraffic_charac t ht (l8 ++ [⟨x9, y9, t, some img9⟩]) ∅ initT
    hs0 h9 hnd9 hdisj9
  have hT9univ : ((l8 ++ [(⟨x9, y9, t, some img9⟩ : TFrag)]).map
      fragPos).toFinset = Finset.univ := by
    apply Finset.eq_univ_of_card
    rw [List.toFinset_card_of_nodup hnd9, List.length_map,
      List.length_append, hlen]
    simp [Fintype.card_prod]
  have hC : (runTraffic initT (l8 ++ [⟨x9, y9, t, some img9⟩])).2 = 1 := by
    rw [H9.2, if_pos ⟨by simp, by rw [Finset.empty_union]; exact hT9univ⟩]
  have hD : check_tiles
      (runTraffic initT (l8 ++ [⟨x9, y9, t, some img9⟩])).1.tiles t
        = true := by
    rw [check_tiles_eq_true_iff]
    intro i j
    rw [H9.1 i j, Finset.empty_union, hT9univ,
      if_pos (Finset.mem_univ ((i, j) : Pos))]
  -- the 9th fragment with a different timestamp
  obtain ⟨q, hq⟩ : (l8.map fragPos).toFinset.Nonempty :=
    Finset.card_pos.mp (by rw [hT8card]; norm_num)
  have hqne : ¬ (q.1 = x9 ∧ q.2 = y9) := by
    rintro ⟨h1, h2⟩
    apply hp9T8
    have : q = ((x9, y9) : Pos) := Prod.ext h1 h2
    rwa [this] at hq
  have hq_t : (runTraffic initT l8).1.tiles q.1 q.2 = t := by
    rw [hs8, if_pos (by simpa using hq)]
  have happ := runTraffic_append initT l8 [⟨x9, y9, t', some img9'⟩]
  have hsingle : ∀ s : TState, runTraffic s [(⟨x9, y9, t', some img9'⟩ : TFrag)]
      = ((process_traffic_map s ⟨x9, y9, t', some img9'⟩).1,
         (process_traffic_map s ⟨x9, y9, t', some img9'⟩).2.1) := by
    intro s
    rw [runTraffic_cons, runTraffic_nil]
    rfl
  by_cases ht'0 : t' = 0
  · -- the different timestamp is itself the sentinel: the duplicate guard
    -- silently drops the fragment
    have hdup : process_traffic_map (runTraffic initT l8).1
        ⟨x9, y9, t', some img9'⟩ = ((runTraffic initT l8).1, 0, false) :=
      process_traffic_map_of_dup _ _ (by rw [h9cell, ht'0])
    have hstate : (runTraffic initT (l8 ++ [⟨x9, y9, t', some img9'⟩])).1
        = (runTraffic initT l8).1 := by
      rw [happ, hsingle, hdup]
    have hcount : (runTraffic initT (l8 ++ [⟨x9, y9, t', some img9'⟩])).2
        = 0 := by
      rw [happ, hsingle, hdup, hA]
      rfl
    refine ⟨hA, hB, hC, hD, hcount, ?_, ?_⟩
    · rw [hstate, check_tiles_eq_false_iff]
      intro hall
      have := hall q.1 q.2
      rw [hq_t] at this
      exact ht' this.symm
    · rw [hstate]
      exact hB
  · -- the different timestamp passes the guard but completes nothing
    have hguard : ¬ (runTraffic initT l8).1.tiles x9 y9 = t' := by
      rw [h9cell]
      exact fun h => ht'0 h.symm
    have hstep := process_traffic_map_step (runTraffic initT l8).1
      ⟨x9, y9, t', some img9'⟩ img9' hguard rfl
    have hchk : check_tiles
        (setCell (runTraffic initT l8).1.tiles x9 y9 t') t' = false := by
      rw [check_tiles_eq_false_iff]
      intro hall
      have := hall q.1 q.2
      rw [setCell_apply, if_neg hqne, hq_t] at this
      exact ht' this.symm
    rw [hchk] at hstep
    simp only [Bool.false_eq_true, if_false] at hstep
    have hstate : (runTraffic initT (l8 ++ [⟨x9, y9, t', some img9'⟩])).1
        = (⟨setCell (runTraffic initT l8).1.tiles x9 y9 t',
            setCell (runTraffic initT l8).1.canvas x9 y9 (some img9')⟩
            : TState) := by
      rw [happ, hsingle, hstep]
    have hcount : (runTraffic initT (l8 ++ [⟨x9, y9, t', some img9'⟩])).2
        = 0 := by
      rw [happ, hsingle, hstep, hA]
      rfl
    refine ⟨hA, hB, hC, hD, hcount, ?_, ?_⟩
    · rw [hstate]
      show check_tiles
        (setCell (runTraffic initT l8).1.tiles x9 y9 t') t' = false
      exact hchk
    · rw [hstate]
      show check_tiles
        (setCell (runTraffic initT l8).1.tiles x9 y9 t') t = false
      rw [check_tiles_eq_false_iff]
      intro hall
      have := hall x9 y9
      rw [setCell_apply, if_pos ⟨rfl, rfl⟩] at this
      exact ht' this

/-- The parsed timestamp of the scenario fragments `TMT_..._20240101_0000`
(2024-01-01 00:00 UTC). -/
def tJan2024 : ℤ := epochSecs 2024 1 1 0 0

/-- Eight of the nine scenario tiles, in an arbitrary fixed order. -/
def l8Jan : List TFrag :=
  [⟨0, 0, tJan2024, some [1]⟩, ⟨0, 1, tJan2024, some [2]⟩,
   ⟨0, 2, tJan2024, some [3]⟩, ⟨1, 0, tJan2024, some [4]⟩,
   ⟨1, 1, tJan2024, some [5]⟩, ⟨1, 2, tJan2024, some [6]⟩,
   ⟨2, 0, tJan2024, some [7]⟩, ⟨2, 1, tJan2024, some [8]⟩]

/-- Witness for C1 on the spec's concrete 2024-01-01 scenario. -/
theorem c1_witness :
    tJan2024 ≠ 0 ∧
    (runTraffic initT l8Jan).2 = 0 ∧
    check_tiles (runTraffic initT l8Jan).1.tiles tJan2024 = false ∧
    (runTraffic initT (l8Jan ++ [⟨2, 2, tJan2024, some [9]⟩])).2 = 1 ∧
    check_tiles (runTraffic initT
      (l8Jan ++ [⟨2, 2, tJan2024, some [9]⟩])).1.tiles tJan2024 = true ∧
    (runTraffic initT (l8Jan ++ [⟨2, 2, 0, some [9]⟩])).2 = 0 ∧
    check_tiles (runTraffic initT
      (l8Jan ++ [⟨2, 2, 0, some [9]⟩])).1.tiles 0 = false ∧
    check_tiles (runTraffic initT
      (l8Jan ++ [⟨2, 2, 0, some [9]⟩])).1.tiles tJan2024 = false := by
  have h := c1_completion_exactness tJan2024 (by decide) l8Jan 2 2 [9] [9] 0
    (by decide) (by decide) (by decide) (by decide)
  exact ⟨by decide, h.1, h.2.1, h.2.2.1, h.2.2.2.1, h.2.2.2.2.1,
    h.2.2.2.2.2.1, h.2.2.2.2.2.2⟩

/-- Python's `round` is the identity on integers. -/
theorem pyRound_intCast (n : ℤ) : pyRound ((n : ℤ) : ℝ) = n := by
  unfold pyRound
  rw [Int.fract_intCast, if_pos (by norm_num : (0 : ℝ) < 1 / 2)]
  exact Int.floor_intCast n

/-- `map_image_coordinates` at latitude 0, longitude 0: exactly pixel
`(23808, 11264)` (tile `(93, 44)` at 256 px/tile). -/
theorem map_image_coordinates_lat0_lon0 :
    map_image_coordinates 0 0 = (23808, 11264) := by
  simp only [map_image_coordinates, radians]
  have h1 : (0 : ℝ) * Real.pi / 180 = 0 := by ring
  rw [h1, Real.tan_zero, Real.arsinh_zero, zero_div]
  have hx : ((1 + 0) / 2 * 2 ^ 8 - 35 : ℝ) * 256 = ((23808 : ℤ) : ℝ) := by
    norm_num
  have hy : ((1 - 0) / 2 * 2 ^ 8 - 84 : ℝ) * 256 = ((11264 : ℤ) : ℝ) := by
    norm_num
  rw [hx, hy, pyRound_intCast, pyRound_intCast]

/-- `map_image_coordinates` at latitude 0, longitude 180: exactly pixel
`(56576, 11264)` (tile `(221, 44)` at 256 px/tile). -/
theorem map_image_coordinates_lat0_lon180 :
    map_image_coordinates 0 180 = (56576, 11264) := by
  simp only [map_image_coordinates, radians]
  have hpi := Real.pi_ne_zero
  have h1 : (0 : ℝ) * Real.pi / 180 = 0 := by ring
  have h2 : (180 : ℝ) * Real.pi / 180 / Real.pi = 1 := by
    field_simp
  rw [h1, Real.tan_zero, Real.arsinh_zero, zero_div, h2]
  have hx : ((1 + 1) / 2 * 2 ^ 8 - 35 : ℝ) * 256 = ((56576 : ℤ) : ℝ) := by
    norm_num
  have hy : ((1 - 0) / 2 * 2 ^ 8 - 84 : ℝ) * 256 = ((11264 : ℤ) : ℝ) := by
    norm_num
  rw [hx, hy, pyRound_intCast, pyRound_intCast]

/-- **C7** — the missing-world-mosaic fallback is broken, contradicting
the claim's (and the source comment's) intent of degrading to a blank
placeholder: at the failing input `pos = [0, 0, 0, 180]` with `map.png`
and the base map absent, `make_base_map` reaches `Image.new` with the
float size `(pos[2]-pos[1], pos[3]-pos[1]) = (0, 180)` and raises an
uncaught `TypeError`, persisting nothing — and that requested size is in
raw degrees anyway: the region's crop runs from pixel `(23808, 11264)` to
`(56576, 11264)`, so the claimed crop-pixel size has width `32768 ≠ 0`. -/
theorem c7_fallback_bug :
    make_base_map false false ![0, 0, 0, 180] = .raiseTypeError (0, 180) ∧
    map_image_coordinates 0 0 = (23808, 11264) ∧
    map_image_coordinates 0 180 = (56576, 11264) ∧
    (0 : ℝ) ≠ ((56576 - 23808 : ℤ) : ℝ) := by
  refine ⟨?_, map_image_coordinates_lat0_lon0,
    map_image_coordinates_lat0_lon180, by norm_num⟩
  show BaseMapAction.raiseTypeError _ = _
  norm_num [Matrix.cons_val_one, Matrix.head_cons]

end Nrsc5
